import Mathlib

/-!
Verification of the metadata-driven reporting pipeline of this repository.

The component under verification is the custom console reporter
(`src/lib/MetadataReporter.ts`): it reads annotations and tags back from a
finished test case, resolves the metadata fields through ordered fallback
chains, and formats console output lines.  The JavaScript values of type
`string | undefined` are embedded as `Option String` (with `none` for
`undefined`), and JavaScript truthiness (`""` and `undefined` are falsy) is
made explicit through `jsTruthy` / `jsOr`.  Console output is embedded as the
list of lines written by one reporter invocation.
-/

/-- A runner-native `(type, description)` pair attached to a test case.
`description` is `string | undefined` in the source, hence `Option String`. -/
structure AnnotationRecord where
  type : String
  description : Option String
deriving DecidableEq, Repr

/-- The slice of the runner's completed-test object the reporter reads:
title, tags and annotations (absent arrays are embedded as `[]`, matching
the source's `test.tags || []` / `test.annotations || []` normalisation). -/
structure TestCase where
  title : String
  tags : List String
  annotations : List AnnotationRecord
deriving DecidableEq, Repr

/-- The slice of the runner's result object the reporter reads.  `status`
is `Option String` so that a genuinely absent status is representable. -/
structure TestResult where
  status : Option String
deriving DecidableEq, Repr

/-- JavaScript truthiness of a `string | undefined` value: `undefined` and
the empty string are falsy, every other string is truthy. -/
def jsTruthy : Option String → Bool
  | none => false
  | some s => !(s == "")

/-- JavaScript `a || b` on `string | undefined` values. -/
def jsOr (a b : Option String) : Option String :=
  if jsTruthy a then a else b

/-- Template-literal interpolation of a `string | undefined` value:
`undefined` renders as the literal text `"undefined"`. -/
def interp : Option String → String
  | none => "undefined"
  | some s => s

/-- `findAnnotationValue(annotations, type)`: the `description` of the first
annotation whose `type` matches, `undefined` when none matches or the match
carries no description (`annotation?.description`). -/
def findAnnotationValue (annotations : List AnnotationRecord) (ty : String) :
    Option String :=
  (annotations.find? (fun a => a.type == ty)).bind (fun a => a.description)

/-- JavaScript `t.startsWith(pre)`, embedded on the character sequence. -/
def strStartsWith (t pre : String) : Bool :=
  pre.data.isPrefixOf t.data

/-- JavaScript `t.substring(n)` (suffix from index `n`), embedded on the
character sequence. -/
def strDrop (t : String) (n : Nat) : String :=
  String.mk (t.data.drop n)

/-- JavaScript `pre.length`, embedded on the character sequence. -/
def strLength (pre : String) : Nat :=
  pre.data.length

/-- `findTagValue(tags, prefix)`: the remainder after the fixed leading
pattern of the first tag that starts with it; `undefined` when no tag
matches.  The source's `tag ? tag.substring(...) : undefined` also yields
`undefined` when the matching tag is itself the (falsy) empty string. -/
def findTagValue (tags : List String) (pre : String) : Option String :=
  match tags.find? (fun t => strStartsWith t pre) with
  | some tag => if tag == "" then none else some (strDrop tag (strLength pre))
  | none => none

/-- `getStatusSymbol(status)`: fixed display glyph for a status string. -/
def getStatusSymbol (status : String) : String :=
  if status == "passed" then "✅"
  else if status == "failed" then "❌"
  else if status == "timedOut" then "⏱️"
  else if status == "skipped" then "⏭️"
  else "❓"

/-- Resolution of `testId` (source line 16): `'Test ID'` annotation,
falling back to the `@TC` tag. -/
def resolveTestId (annotations : List AnnotationRecord) (tags : List String) :
    Option String :=
  jsOr (findAnnotationValue annotations "Test ID") (findTagValue tags "@TC")

/-- Resolution of `priority` (source line 17): `'Priority'` annotation,
falling back to the `@P` tag. -/
def resolvePriority (annotations : List AnnotationRecord) (tags : List String) :
    Option String :=
  jsOr (findAnnotationValue annotations "Priority") (findTagValue tags "@P")

/-- Resolution of `author` (source line 18): `'Author'` annotation,
falling back to `'Unknown'`. -/
def resolveAuthor (annotations : List AnnotationRecord) : Option String :=
  jsOr (findAnnotationValue annotations "Author") (some "Unknown")

/-- Resolution of `page` (source line 19): `'Page'` annotation, falling back
to the `@` tag, falling back to `'Unknown'`. -/
def resolvePage (annotations : List AnnotationRecord) (tags : List String) :
    Option String :=
  jsOr (jsOr (findAnnotationValue annotations "Page") (findTagValue tags "@"))
    (some "Unknown")

/-- Resolution of `feature` (source line 20): `'Feature'` annotation,
falling back to `'Unknown'`. -/
def resolveFeature (annotations : List AnnotationRecord) : Option String :=
  jsOr (findAnnotationValue annotations "Feature") (some "Unknown")

/-- Resolution of `jiraTicket` (source line 21): `'Jira Ticket'` annotation
only, no fallback. -/
def resolveJiraTicket (annotations : List AnnotationRecord) : Option String :=
  findAnnotationValue annotations "Jira Ticket"

/-- `MetadataReporter.onTestEnd(test, result)`, embedded as the list of
console lines the invocation writes.  Guarded on the truthiness of
`result.status`; the third separator line appears only for `'failed'`. -/
def onTestEnd (tc : TestCase) (result : TestResult) : List String :=
  match result.status with
  | none => []
  | some s =>
    if s == "" then []
    else
      let status := getStatusSymbol s
      let testId := resolveTestId tc.annotations tc.tags
      let priority := resolvePriority tc.annotations tc.tags
      let author := resolveAuthor tc.annotations
      let page := resolvePage tc.annotations tc.tags
      let feature := resolveFeature tc.annotations
      let jiraTicket := resolveJiraTicket tc.annotations
      let line1 := status ++ " [" ++ interp testId ++ "][" ++ interp priority
        ++ "] " ++ tc.title
      let line2 := "   Page: " ++ interp page ++ " | Feature: " ++ interp feature
        ++ " | Author: " ++ interp author
        ++ (if jsTruthy jiraTicket then " | Jira: " ++ interp jiraTicket else "")
      line1 :: line2 :: (if s == "failed" then ["   ---"] else [])

/-- The metadata value object attached to each test definition (spec §3).
Required fields are `Option String` so that an absent value is
representable alongside an empty one. -/
structure TestMetadata where
  testId : Option String
  testName : Option String
  description : Option String
  priority : Option String
  author : Option String
  pageUnderTest : Option String
  featureUnderTest : Option String
  linkInTestManagementSys : Option String
  linkToJiraTicket : Option String
deriving DecidableEq, Repr

/-- The augmented registration structure the attacher produces: the derived
annotation set and tag set carried alongside the test (spec §4.1). -/
structure Registration where
  annotations : List AnnotationRecord
  tags : List String
deriving DecidableEq, Repr

/-- Modelled from the spec: the Metadata Attacher of §4.1 is not present
under `src/` (only the reporter is); this models its contract from the
spec's words.  It emits one `AnnotationRecord` with a fixed human label per
non-empty metadata field, emits compact tags for test id, priority and page
under the `@` convention, and fails fast (rejects the registration) when
`testId` or `testName` is empty or absent. -/
def attachMetadata (m : TestMetadata) : Except String Registration :=
  if !(jsTruthy m.testId) then Except.error "testId is required"
  else if !(jsTruthy m.testName) then Except.error "testName is required"
  else
    let annOf : String → Option String → List AnnotationRecord := fun label v =>
      if jsTruthy v then [⟨label, v⟩] else []
    let tagOf : Option String → List String := fun v =>
      match v with
      | some s => if s == "" then [] else ["@" ++ s]
      | none => []
    Except.ok
      { annotations :=
          annOf "Test ID" m.testId ++ annOf "Test Name" m.testName
            ++ annOf "Description" m.description ++ annOf "Priority" m.priority
            ++ annOf "Author" m.author ++ annOf "Page" m.pageUnderTest
            ++ annOf "Feature" m.featureUnderTest
            ++ annOf "TMS Link" m.linkInTestManagementSys
            ++ annOf "Jira Ticket" m.linkToJiraTicket
        tags := tagOf m.testId ++ tagOf m.priority ++ tagOf m.pageUnderTest }

/-! ### Helper lemmas on the JavaScript value embedding -/

theorem jsTruthy_some_of_ne (s : String) (h : s ≠ "") : jsTruthy (some s) = true := by
  simp [jsTruthy, h]

theorem jsTruthy_some_empty : jsTruthy (some "") = false := by
  simp [jsTruthy]

theorem jsOr_of_truthy (a b : Option String) (h : jsTruthy a = true) :
    jsOr a b = a := by
  simp [jsOr, h]

theorem jsOr_of_falsy (a b : Option String) (h : jsTruthy a = false) :
    jsOr a b = b := by
  simp [jsOr, h]

theorem jsOr_default_ne_none (a : Option String) (s : String) :
    jsOr a (some s) ≠ none := by
  rcases a with _ | t
  · simp [jsOr, jsTruthy]
  · by_cases h : t = "" <;> simp [jsOr, jsTruthy, h]

/-- Unfolding of one reporter invocation under a truthy status: the head
line, the metadata line, and the conditional failure separator. -/
theorem onTestEnd_eq_of_status (tc : TestCase) (r : TestResult) (s : String)
    (hs : r.status = some s) (hne : s ≠ "") :
    onTestEnd tc r =
      (getStatusSymbol s ++ " [" ++ interp (resolveTestId tc.annotations tc.tags)
          ++ "][" ++ interp (resolvePriority tc.annotations tc.tags)
          ++ "] " ++ tc.title)
        :: ("   Page: " ++ interp (resolvePage tc.annotations tc.tags)
          ++ " | Feature: " ++ interp (resolveFeature tc.annotations)
          ++ " | Author: " ++ interp (resolveAuthor tc.annotations)
          ++ (if jsTruthy (resolveJiraTicket tc.annotations)
              then " | Jira: " ++ interp (resolveJiraTicket tc.annotations) else ""))
        :: (if s == "failed" then ["   ---"] else []) := by
  cases r with
  | mk st =>
    simp only at hs
    subst hs
    simp [onTestEnd, hne]

/-! ### Claim theorems -/

/-- Claim C2: for every completed test with a truthy status, the reporter
writes exactly two console lines — the glyph/id/priority/title head line and
the Page/Feature/Author line — where the second line carries an appended
Jira segment exactly when the jiraTicket value is present (truthy), and a
third separator line `   ---` is written exactly when the status is
`failed`. -/
theorem onTestEnd_output_format (tc : TestCase) (r : TestResult) (s : String)
    (hs : r.status = some s) (hne : s ≠ "") :
    onTestEnd tc r =
      [getStatusSymbol s ++ " [" ++ interp (resolveTestId tc.annotations tc.tags)
          ++ "][" ++ interp (resolvePriority tc.annotations tc.tags)
          ++ "] " ++ tc.title,
        "   Page: " ++ interp (resolvePage tc.annotations tc.tags)
          ++ " | Feature: " ++ interp (resolveFeature tc.annotations)
          ++ " | Author: " ++ interp (resolveAuthor tc.annotations)
          ++ (if jsTruthy (resolveJiraTicket tc.annotations)
              then " | Jira: " ++ interp (resolveJiraTicket tc.annotations) else "")]
      ++ (if s == "failed" then ["   ---"] else []) := by
  rw [onTestEnd_eq_of_status tc r s hs hne]
  rfl

/-- Closed witness for C2: a failed test with a Jira annotation produces
the three expected lines, the second ending in the Jira segment. -/
theorem onTestEnd_output_format_witness :
    onTestEnd ⟨"Login", [], [⟨"Jira Ticket", some "JIRA-99"⟩]⟩ ⟨some "failed"⟩ =
      ["❌ [undefined][undefined] Login",
       "   Page: Unknown | Feature: Unknown | Author: Unknown | Jira: JIRA-99",
       "   ---"] :=
  (onTestEnd_output_format ⟨"Login", [], [⟨"Jira Ticket", some "JIRA-99"⟩]⟩
    ⟨some "failed"⟩ "failed" rfl (by decide)).trans (by decide)

/-- Claim C3: a reporter invocation with a falsy status (absent or the empty
string) performs no console write at all, while any truthy status produces
output. -/
theorem onTestEnd_falsy_noop (tc : TestCase) (r : TestResult) :
    (jsTruthy r.status = false → onTestEnd tc r = [])
      ∧ (jsTruthy r.status = true → onTestEnd tc r ≠ []) := by
  cases r with
  | mk st =>
    cases st with
    | none =>
      refine ⟨fun _ => by simp [onTestEnd], fun h => ?_⟩
      simp [jsTruthy] at h
    | some s =>
      by_cases h : s = ""
      · refine ⟨fun _ => by simp [onTestEnd, h], fun ht => ?_⟩
        rw [h] at ht
        simp [jsTruthy] at ht
      · refine ⟨fun hf => ?_, fun _ => ?_⟩
        · rw [jsTruthy_some_of_ne s h] at hf
          exact Bool.noConfusion hf
        · rw [onTestEnd_eq_of_status tc ⟨some s⟩ s rfl h]
          simp

/-- Closed witness for C3: an empty-string status writes nothing; a
truthy `skipped` status writes output. -/
theorem onTestEnd_falsy_noop_witness :
    onTestEnd ⟨"t", [], []⟩ ⟨some ""⟩ = []
      ∧ onTestEnd ⟨"t", [], []⟩ ⟨some "skipped"⟩ ≠ [] := by
  constructor
  · exact (onTestEnd_falsy_noop ⟨"t", [], []⟩ ⟨some ""⟩).1 (by decide)
  · exact (onTestEnd_falsy_noop ⟨"t", [], []⟩ ⟨some "skipped"⟩).2 (by decide)

/-- Claim C4: the status-to-glyph mapping sends `passed`, `failed`,
`timedOut` and `skipped` to their fixed glyphs and every other status
string to the question-mark glyph. -/
theorem getStatusSymbol_glyphs (s : String) :
    getStatusSymbol "passed" = "✅"
      ∧ getStatusSymbol "failed" = "❌"
      ∧ getStatusSymbol "timedOut" = "⏱️"
      ∧ getStatusSymbol "skipped" = "⏭️"
      ∧ (s ≠ "passed" → s ≠ "failed" → s ≠ "timedOut" → s ≠ "skipped" →
          getStatusSymbol s = "❓") := by
  refine ⟨by decide, by decide, by decide, by decide, fun h1 h2 h3 h4 => ?_⟩
  simp [getStatusSymbol, h1, h2, h3, h4]

/-- Closed witness for C4: an unlisted status gets the fallback glyph. -/
theorem getStatusSymbol_glyphs_witness :
    getStatusSymbol "interrupted" = "❓" :=
  (getStatusSymbol_glyphs "interrupted").2.2.2.2 (by decide) (by decide)
    (by decide) (by decide)

/-- Claim C6: on every input the reporter invocation is total and
well-formed — it produces a defined list of zero, two or three lines, and
the author, page and feature lookups can never come back absent (they
degrade to a default instead of an error). -/
theorem onTestEnd_never_raises (tc : TestCase) (r : TestResult) :
    ∃ out : List String, onTestEnd tc r = out
      ∧ (out.length = 0 ∨ out.length = 2 ∨ out.length = 3)
      ∧ resolveAuthor tc.annotations ≠ none
      ∧ resolvePage tc.annotations tc.tags ≠ none
      ∧ resolveFeature tc.annotations ≠ none := by
  refine ⟨onTestEnd tc r, rfl, ?_, ?_, ?_, ?_⟩
  · cases r with
    | mk st =>
      cases st with
      | none => simp [onTestEnd]
      | some s =>
        by_cases h : s = ""
        · simp [onTestEnd, h]
        · rw [onTestEnd_eq_of_status tc ⟨some s⟩ s rfl h]
          by_cases hf : s = "failed" <;> simp [hf]
  · exact jsOr_default_ne_none _ _
  · exact jsOr_default_ne_none _ _
  · exact jsOr_default_ne_none _ _

/-- Claim C8: the reporter is deterministic and interference-free — its
output is a function of only the title, annotations, tags and status passed
to the invocation, so two invocations with equal inputs produce identical
output. -/
theorem onTestEnd_deterministic (t₁ t₂ : TestCase) (r₁ r₂ : TestResult)
    (h1 : t₁.title = t₂.title) (h2 : t₁.tags = t₂.tags)
    (h3 : t₁.annotations = t₂.annotations) (h4 : r₁.status = r₂.status) :
    onTestEnd t₁ r₁ = onTestEnd t₂ r₂ := by
  cases t₁
  cases t₂
  cases r₁
  cases r₂
  simp only at h1 h2 h3 h4
  subst h1
  subst h2
  subst h3
  subst h4
  rfl

/-- Closed witness for C8: two structurally equal invocations agree. -/
theorem onTestEnd_deterministic_witness :
    onTestEnd ⟨"a", ["@P1"], []⟩ ⟨some "passed"⟩ =
      onTestEnd ⟨"a", ["@P1"], []⟩ ⟨some "passed"⟩ :=
  onTestEnd_deterministic ⟨"a", ["@P1"], []⟩ ⟨"a", ["@P1"], []⟩
    ⟨some "passed"⟩ ⟨some "passed"⟩ rfl rfl rfl rfl

/-- Counterexample to claim C1 as stated: with no annotations and no tags,
no source yields a feature value, yet the feature field resolves to the
literal string `Unknown` (source line 20), not to `undefined` as claimed. -/
theorem resolveFeature_default_cex :
    resolveFeature [] ≠ none ∧ resolveFeature [] = some "Unknown" := by
  constructor
  · decide
  · decide

/-- Claim C1 (amended): each field is resolved by its ordered fallback
chain — a truthy annotation value wins, otherwise testId/priority/page fall
back to their tag lookup — and when no source yields a value, author, page
and feature resolve to the literal string `Unknown` while testId, priority
and jiraTicket resolve to `undefined`. -/
theorem resolve_fallback_chain (anns : List AnnotationRecord) (tags : List String) :
    (jsTruthy (findAnnotationValue anns "Test ID") = true →
        resolveTestId anns tags = findAnnotationValue anns "Test ID")
      ∧ (jsTruthy (findAnnotationValue anns "Test ID") = false →
          resolveTestId anns tags = findTagValue tags "@TC")
      ∧ (findAnnotationValue anns "Test ID" = none → findTagValue tags "@TC" = none →
          resolveTestId anns tags = none)
      ∧ (jsTruthy (findAnnotationValue anns "Priority") = true →
          resolvePriority anns tags = findAnnotationValue anns "Priority")
      ∧ (jsTruthy (findAnnotationValue anns "Priority") = false →
          resolvePriority anns tags = findTagValue tags "@P")
      ∧ (findAnnotationValue anns "Priority" = none → findTagValue tags "@P" = none →
          resolvePriority anns tags = none)
      ∧ (jsTruthy (findAnnotationValue anns "Author") = true →
          resolveAuthor anns = findAnnotationValue anns "Author")
      ∧ (jsTruthy (findAnnotationValue anns "Author") = false →
          resolveAuthor anns = some "Unknown")
      ∧ (jsTruthy (findAnnotationValue anns "Page") = true →
          resolvePage anns tags = findAnnotationValue anns "Page")
      ∧ (jsTruthy (findAnnotationValue anns "Page") = false →
          jsTruthy (findTagValue tags "@") = true →
          resolvePage anns tags = findTagValue tags "@")
      ∧ (jsTruthy (findAnnotationValue anns "Page") = false →
          jsTruthy (findTagValue tags "@") = false →
          resolvePage anns tags = some "Unknown")
      ∧ (jsTruthy (findAnnotationValue anns "Feature") = true →
          resolveFeature anns = findAnnotationValue anns "Feature")
      ∧ (jsTruthy (findAnnotationValue anns "Feature") = false →
          resolveFeature anns = some "Unknown")
      ∧ resolveJiraTicket anns = findAnnotationValue anns "Jira Ticket" := by
  refine ⟨?_, ?_, ?_, ?_, ?_, ?_, ?_, ?_, ?_, ?_, ?_, ?_, ?_, rfl⟩
  · intro h
    exact jsOr_of_truthy _ _ h
  · intro h
    exact jsOr_of_falsy _ _ h
  · intro h1 h2
    simp only [resolveTestId, h1, h2]
    decide
  · intro h
    exact jsOr_of_truthy _ _ h
  · intro h
    exact jsOr_of_falsy _ _ h
  · intro h1 h2
    simp only [resolvePriority, h1, h2]
    decide
  · intro h
    exact jsOr_of_truthy _ _ h
  · intro h
    exact jsOr_of_falsy _ _ h
  · intro h
    have hin := jsOr_of_truthy (findAnnotationValue anns "Page") (findTagValue tags "@") h
    simp only [resolvePage, hin]
    exact jsOr_of_truthy _ _ h
  · intro h1 h2
    have hin := jsOr_of_falsy (findAnnotationValue anns "Page") (findTagValue tags "@") h1
    simp only [resolvePage, hin]
    exact jsOr_of_truthy _ _ h2
  · intro h1 h2
    have hin := jsOr_of_falsy (findAnnotationValue anns "Page") (findTagValue tags "@") h1
    simp only [resolvePage, hin]
    exact jsOr_of_falsy _ _ h2
  · intro h
    exact jsOr_of_truthy _ _ h
  · intro h
    exact jsOr_of_falsy _ _ h

/-- Closed witness for the amended C1: annotation values win when present,
tag fallbacks apply when the annotation is absent, and absent sources give
`Unknown` for author/page/feature and `undefined` for the rest. -/
theorem resolve_fallback_chain_witness :
    resolveTestId [] [] = none
      ∧ resolvePriority [] [] = none
      ∧ resolveAuthor [] = some "Unknown"
      ∧ resolvePage [⟨"Page", some "Products"⟩] [] = some "Products"
      ∧ resolveFeature [] = some "Unknown"
      ∧ resolveJiraTicket [] = none := by
  refine ⟨?_, ?_, ?_, ?_, ?_, ?_⟩
  · exact (resolve_fallback_chain [] []).2.2.1 (by decide) (by decide)
  · exact (resolve_fallback_chain [] []).2.2.2.2.2.1 (by decide) (by decide)
  · exact (resolve_fallback_chain [] []).2.2.2.2.2.2.2.1 (by decide)
  · exact ((resolve_fallback_chain [⟨"Page", some "Products"⟩] []).2.2.2.2.2.2.2.2.1
      (by decide)).trans (by decide)
  · exact (resolve_fallback_chain [] []).2.2.2.2.2.2.2.2.2.2.2.2.1 (by decide)
  · exact ((resolve_fallback_chain [] []).2.2.2.2.2.2.2.2.2.2.2.2.2).trans (by decide)

/-- Claim C9: with a truthy status but no Test ID annotation, no `@TC` tag,
no Priority annotation and no `@P` tag, the head line still carries both
bracket segments, interpolated as the literal text `undefined`. -/
theorem onTestEnd_undefined_brackets (tc : TestCase) (r : TestResult) (s : String)
    (hs : r.status = some s) (hne : s ≠ "")
    (h1 : findAnnotationValue tc.annotations "Test ID" = none)
    (h2 : findTagValue tc.tags "@TC" = none)
    (h3 : findAnnotationValue tc.annotations "Priority" = none)
    (h4 : findTagValue tc.tags "@P" = none) :
    ∃ rest : List String,
      onTestEnd tc r =
        (getStatusSymbol s ++ " [undefined][undefined] " ++ tc.title) :: rest := by
  have hid : resolveTestId tc.annotations tc.tags = none := by
    simp only [resolveTestId, h1, h2]
    decide
  have hpr : resolvePriority tc.annotations tc.tags = none := by
    simp only [resolvePriority, h3, h4]
    decide
  refine ⟨("   Page: " ++ interp (resolvePage tc.annotations tc.tags)
      ++ " | Feature: " ++ interp (resolveFeature tc.annotations)
      ++ " | Author: " ++ interp (resolveAuthor tc.annotations)
      ++ (if jsTruthy (resolveJiraTicket tc.annotations)
          then " | Jira: " ++ interp (resolveJiraTicket tc.annotations) else ""))
      :: (if s == "failed" then ["   ---"] else []), ?_⟩
  rw [onTestEnd_eq_of_status tc r s hs hne, hid, hpr]
  congr 1
  have hfold : (((((" [" ++ "undefined") ++ "][") ++ "undefined") ++ "] ")
      : String) = " [undefined][undefined] " := by decide
  simp only [interp, String.append_assoc]
  rw [← String.append_assoc " [" "undefined",
    ← String.append_assoc (" [" ++ "undefined") "][",
    ← String.append_assoc ((" [" ++ "undefined") ++ "][") "undefined",
    ← String.append_assoc (((" [" ++ "undefined") ++ "][") ++ "undefined") "] ",
    hfold]

/-- Closed witness for C9: a passed test with no annotations and no tags
renders both brackets with the literal text `undefined`. -/
theorem onTestEnd_undefined_brackets_witness :
    ∃ rest : List String,
      onTestEnd ⟨"t", [], []⟩ ⟨some "passed"⟩ =
        (getStatusSymbol "passed" ++ " [undefined][undefined] " ++ "t") :: rest :=
  onTestEnd_undefined_brackets ⟨"t", [], []⟩ ⟨some "passed"⟩ "passed" rfl
    (by decide) (by decide) (by decide) (by decide) (by decide)

/-- Counterexample to claim C5 as stated: for the tag list `[""]` and the
empty pattern, the first tag does start with the pattern and the substring
following it is `""`, yet the lookup returns `undefined` (the source's
`tag ? ... : undefined` treats the matching empty tag as falsy). -/
theorem findTagValue_empty_tag_cex :
    [""].find? (fun x => strStartsWith x "") = some ""
      ∧ findTagValue [""] "" ≠ some (strDrop "" (strLength ""))
      ∧ findTagValue [""] "" = none := by
  refine ⟨by decide, by decide, by decide⟩

/-- Claim C5 (amended): the tag lookup returns `undefined` when no tag
starts with the pattern, and otherwise returns the remainder of the first
matching tag after the pattern provided that tag is nonempty (a matching
empty tag — possible only for the empty pattern — yields `undefined`); in
particular with no annotations and tags `@TC042`, `@P1`, testId resolves to
`042` and priority to `1`. -/
theorem findTagValue_first_match (tags : List String) (p : String) :
    (tags.find? (fun x => strStartsWith x p) = none → findTagValue tags p = none)
      ∧ (∀ t, tags.find? (fun x => strStartsWith x p) = some t → t ≠ "" →
          findTagValue tags p = some (strDrop t (strLength p)))
      ∧ resolveTestId [] ["@TC042", "@P1"] = some "042"
      ∧ resolvePriority [] ["@TC042", "@P1"] = some "1" := by
  refine ⟨?_, ?_, by decide, by decide⟩
  · intro h
    simp [findTagValue, h]
  · intro t ht hne
    simp [findTagValue, ht, hne]

/-- Closed witness for the amended C5: no match gives `undefined`, a match
gives the remainder after the pattern. -/
theorem findTagValue_first_match_witness :
    findTagValue ["@X"] "@TC" = none
      ∧ findTagValue ["@TC042", "@P1"] "@TC" = some "042" := by
  constructor
  · exact (findTagValue_first_match ["@X"] "@TC").1 (by decide)
  · exact ((findTagValue_first_match ["@TC042", "@P1"] "@TC").2.1 "@TC042"
      (by decide) (by decide)).trans (by decide)

/-- Counterexample to claim C10 as stated: with no Page annotation and the
tag list `["@"]`, the bare tag `@` starts with `@`, and removing the leading
`@` leaves `""`; yet the page field resolves to `Unknown`, not to that
remainder, because the empty remainder is falsy and the `|| 'Unknown'`
default takes over. -/
theorem resolvePage_bare_at_cex :
    resolvePage [] ["@"] = some "Unknown"
      ∧ resolvePage [] ["@"] ≠ some (strDrop "@" 1) := by
  refine ⟨by decide, by decide⟩

/-- Claim C10 (amended): because the page field's tag fallback uses the
pattern `@`, for every completed test with no Page annotation whose first
tag starting with `@` has a nonempty remainder after the leading `@`, the
page field resolves to that remainder rather than to `Unknown`; when the
remainder is empty (the bare tag `@`), the field falls back to `Unknown`. -/
theorem resolvePage_tag_fallback (anns : List AnnotationRecord)
    (tags : List String) (t : String)
    (hp : findAnnotationValue anns "Page" = none)
    (ht : tags.find? (fun x => strStartsWith x "@") = some t)
    (hrem : strDrop t 1 ≠ "") :
    resolvePage anns tags = some (strDrop t 1) := by
  have hne : t ≠ "" := by
    intro hc
    subst hc
    exact hrem (by decide)
  have hone : strLength "@" = 1 := by decide
  have htag : findTagValue tags "@" = some (strDrop t 1) := by
    simp [findTagValue, ht, hne, hone]
  simp only [resolvePage, hp, htag]
  rw [jsOr_of_falsy none (some (strDrop t 1)) (by decide)]
  exact jsOr_of_truthy _ _ (jsTruthy_some_of_ne _ hrem)

/-- Closed witness for the amended C10: with no annotations and tags
`@TC042`, `@P1`, the page field resolves to `TC042`. -/
theorem resolvePage_tag_fallback_witness :
    resolvePage [] ["@TC042", "@P1"] = some "TC042" :=
  (resolvePage_tag_fallback [] ["@TC042", "@P1"] "@TC042" (by decide)
    (by decide) (by decide)).trans (by decide)

/-- Claim C7 (attacher modelled from the spec): registration is rejected
whenever `testId` or `testName` is empty or absent, and succeeds (does not
throw) whenever both are non-empty — in particular when every optional
field is missing. -/
theorem attachMetadata_fail_fast (m : TestMetadata) :
    ((m.testId = none ∨ m.testId = some "" ∨ m.testName = none
        ∨ m.testName = some "") →
      ∃ msg, attachMetadata m = Except.error msg)
      ∧ (jsTruthy m.testId = true → jsTruthy m.testName = true →
          ∃ r, attachMetadata m = Except.ok r) := by
  constructor
  · intro h
    have hfalsy : jsTruthy m.testId = false ∨ jsTruthy m.testName = false := by
      rcases h with h | h | h | h
      · exact Or.inl (by simp [h, jsTruthy])
      · exact Or.inl (by simp [h, jsTruthy])
      · exact Or.inr (by simp [h, jsTruthy])
      · exact Or.inr (by simp [h, jsTruthy])
    rcases hfalsy with h | h
    · exact ⟨"testId is required", by simp [attachMetadata, h]⟩
    · by_cases hid : jsTruthy m.testId
      · exact ⟨"testName is required", by simp [attachMetadata, h, hid]⟩
      · exact ⟨"testId is required", by simp [attachMetadata, hid]⟩
  · intro h1 h2
    simp [attachMetadata, h1, h2]

/-- Closed witness for C7: an empty `testId` is rejected; metadata with both
required fields non-empty and every optional field absent succeeds. -/
theorem attachMetadata_fail_fast_witness :
    (∃ msg, attachMetadata
        ⟨some "", some "login works", none, none, none, none, none, none, none⟩
      = Except.error msg)
      ∧ (∃ r, attachMetadata
          ⟨some "TC001", some "login works", none, none, none, none, none, none, none⟩
        = Except.ok r) := by
  constructor
  · exact (attachMetadata_fail_fast
      ⟨some "", some "login works", none, none, none, none, none, none, none⟩).1
      (Or.inr (Or.inl rfl))
  · exact (attachMetadata_fail_fast
      ⟨some "TC001", some "login works", none, none, none, none, none, none, none⟩).2
      (by decide) (by decide)
